import Mathlib

/-!
Verification of the core of the `claude-terminal` repository: the stream-JSON
decoder (`src/claude/parser.rs`, `src/claude/types.rs`), the subprocess handle
(`src/claude/process.rs`) and the orchestrator state machine (`src/app.rs`).

The Rust code is shallowly embedded: each Rust type and function is translated
to a Lean definition of the same name (snake_case kept where Lean allows).
Rust `String` is modelled by Lean `String` (a sequence of characters);
`u64` values are modelled by `Nat`, and where arithmetic is performed on them
(the `+=` accumulation of the token counters) the result is taken modulo
2^64, the wrapping semantics of Rust's release profile; `i32` exit codes by
`Int`.
External I/O (terminal, wall clock, child processes, the tokio channel) is at
the embedding boundary: the wall clock is a counter threaded through the state,
and a child process is modelled by the data the orchestrator writes into it.
-/

namespace ClaudeTerminal

/-! ## JSON values (model of `serde_json::Value`)

`serde_json::Value` restricted to the shapes the claims exercise: numbers are
modelled as integers (no claim involves floating point payloads). -/

inductive Json where
  | null
  | bool (b : Bool)
  | num (n : Int)
  | str (s : String)
  | arr (elems : List Json)
  | obj (fields : List (String × Json))

/-- Hex digit for the `\uXXXX` escapes of `serde_json`'s string serializer. -/
def hexDigit (n : Nat) : Char :=
  if n < 10 then Char.ofNat (48 + n) else Char.ofNat (87 + n)

/-- Four-digit hex rendering used by `\uXXXX` escapes. -/
def hex4 (n : Nat) : String :=
  ⟨[hexDigit (n / 4096 % 16), hexDigit (n / 256 % 16), hexDigit (n / 16 % 16), hexDigit (n % 16)]⟩

/-- Escaping of one character inside a JSON string literal, as `serde_json` does. -/
def jsonEscapeChar (c : Char) : String :=
  if c = '"' then "\\\""
  else if c = '\\' then "\\\\"
  else if c = '\n' then "\\n"
  else if c = '\r' then "\\r"
  else if c = '\t' then "\\t"
  else if c.toNat < 32 then "\\u" ++ hex4 c.toNat
  else String.singleton c

/-- A JSON string literal with quotes, as `serde_json` renders it. -/
def renderJsonString (s : String) : String :=
  "\"" ++ String.join (s.data.map jsonEscapeChar) ++ "\""

/-- Two-space indentation of `serde_json`'s pretty formatter. -/
def jIndent (n : Nat) : String :=
  String.join (List.replicate n "  ")

mutual

/-- Model of `serde_json::to_string_pretty` (the `PrettyFormatter`): empty
containers render as `[]` and the two-character brace pair; non-empty ones
put each element on its own indented line. -/
def renderJson (ind : Nat) : Json → String
  | .null => "null"
  | .bool true => "true"
  | .bool false => "false"
  | .num n => toString n
  | .str s => renderJsonString s
  | .arr [] => "[]"
  | .arr (x :: xs) =>
      "[\n" ++ jIndent (ind + 1) ++ renderJson (ind + 1) x ++
        renderArrItems (ind + 1) xs ++ "\n" ++ jIndent ind ++ "]"
  | .obj [] => "\x7b\x7d"
  | .obj (f :: fs) =>
      "\x7b\n" ++ jIndent (ind + 1) ++ renderField (ind + 1) f ++
        renderObjItems (ind + 1) fs ++ "\n" ++ jIndent ind ++ "\x7d"

/-- Remaining array elements, each preceded by a comma, newline and indent. -/
def renderArrItems (ind : Nat) : List Json → String
  | [] => ""
  | x :: xs => ",\n" ++ jIndent ind ++ renderJson ind x ++ renderArrItems ind xs

/-- One `"key": value` pair of a JSON object. -/
def renderField (ind : Nat) : String × Json → String
  | (k, v) => renderJsonString k ++ ": " ++ renderJson ind v

/-- Remaining object fields, each preceded by a comma, newline and indent. -/
def renderObjItems (ind : Nat) : List (String × Json) → String
  | [] => ""
  | f :: fs => ",\n" ++ jIndent ind ++ renderField ind f ++ renderObjItems ind fs

end

/-- `serde_json::to_string_pretty` at top level (indentation level 0). The Rust
call sites wrap it in `unwrap_or_default()`; serialization of a
`serde_json::Value` never fails, so the embedding is total. -/
def to_string_pretty (j : Json) : String := renderJson 0 j

/-- `serde_json::Value::as_str`. -/
def Json.asStr : Json → Option String
  | .str s => some s
  | _ => none

/-! ## Stream decoder types (`src/claude/types.rs`) -/

/-- `StreamEvent` - the semantic events emitted by the decoder. -/
inductive StreamEvent where
  | text (t : String)
  | toolUse (name input : String)
  | toolResult (name result : String)
  | thinking (t : String)
  | usage (input_tokens output_tokens cache_read_tokens cache_write_tokens : Nat)
deriving DecidableEq

/-- `Usage` record of the wire protocol. -/
structure Usage where
  input_tokens : Nat
  output_tokens : Nat
  cache_read_input_tokens : Nat
  cache_creation_input_tokens : Nat
deriving DecidableEq

/-- `ContentBlock`. Unknown tags deserialize to `unknown` via `#[serde(other)]`. -/
inductive ContentBlock where
  | text (text : String)
  | toolUse (id name : String) (input : Json)
  | toolResult (tool_use_id : String) (content : Json)
  | thinking (thinking : String)
  | unknown

/-- `ContentDelta`. -/
inductive ContentDelta where
  | textDelta (text : String)
  | inputJsonDelta (partial_json : String)
  | thinkingDelta (thinking : String)
  | unknown

/-- `MessageDeltaData`. -/
structure MessageDeltaData where
  stop_reason : Option String
  stop_sequence : Option String

/-- `ClaudeMessage` envelope. -/
structure ClaudeMessage where
  id : Option String
  role : Option String
  content : Option (List ContentBlock)
  model : Option String
  stop_reason : Option String
  usage : Option Usage

/-- `RawStreamEvent` - one line of the wire protocol after deserialization. -/
inductive RawStreamEvent where
  | system (subtype : Option String) (data : Json)
  | assistant (message : ClaudeMessage)
  | user (message : ClaudeMessage)
  | contentBlockStart (index : Nat) (content_block : ContentBlock)
  | contentBlockDelta (index : Nat) (delta : ContentDelta)
  | contentBlockStop (index : Nat)
  | messageStart (message : ClaudeMessage)
  | messageDelta (delta : MessageDeltaData) (usage : Option Usage)
  | messageStop
  | result (subtype : Option String) (result : Option Json) (is_error : Option Bool) (data : Json)
  | unknown

/-! ## Stream decoder (`src/claude/parser.rs`) -/

/-- `StreamParser` - the cross-line accumulator state. -/
structure StreamParser where
  current_tool_name : Option String
  current_tool_input : String
deriving DecidableEq

/-- `StreamParser::new` / `Default::default`. -/
def StreamParser.new : StreamParser := ⟨none, ""⟩

/-- `StreamParser::process_content_block`. In the Rust source this returns
`anyhow::Result` but every path returns `Ok`, so the embedding returns the
payload directly (new parser state and emitted events). -/
def StreamParser.process_content_block (p : StreamParser) :
    ContentBlock → StreamParser × List StreamEvent
  | .text t => (p, [.text t])
  | .toolUse _ name input =>
      -- Store the tool name and the serialized input; if the serialized input
      -- is non-empty the event is emitted at once and the accumulator resets.
      let ser := to_string_pretty input
      let p1 : StreamParser := { current_tool_name := some name, current_tool_input := ser }
      if p1.current_tool_input.isEmpty then (p1, [])
      else (⟨none, ""⟩, [.toolUse name ser])
  | .toolResult _ content =>
      let result :=
        match content.asStr with
        | some s => s
        | none => to_string_pretty content
      (p, [.toolResult "tool" result])
  | .thinking t => (p, [.thinking t])
  | .unknown => (p, [])

/-- The loop over `message.content` inside `process_event`: blocks are
processed in order, threading the accumulator state. -/
def StreamParser.processBlocks (p : StreamParser) :
    List ContentBlock → StreamParser × List StreamEvent
  | [] => (p, [])
  | b :: bs =>
      let (p1, evs) := p.process_content_block b
      let (p2, evs2) := p1.processBlocks bs
      (p2, evs ++ evs2)

/-- The `Assistant`/`MessageStart` arm of `process_event`: content blocks,
then the optional usage record. -/
def StreamParser.processMessage (p : StreamParser) (message : ClaudeMessage) :
    StreamParser × List StreamEvent :=
  let (p1, evs) :=
    match message.content with
    | some content => p.processBlocks content
    | none => (p, [])
  match message.usage with
  | some u =>
      (p1, evs ++ [.usage u.input_tokens u.output_tokens
        u.cache_read_input_tokens u.cache_creation_input_tokens])
  | none => (p1, evs)

/-- `StreamParser::process_event`. As with `process_content_block`, every path
of the Rust function returns `Ok`, so the embedding is total. -/
def StreamParser.process_event (p : StreamParser) :
    RawStreamEvent → StreamParser × List StreamEvent
  | .assistant message => p.processMessage message
  | .messageStart message => p.processMessage message
  | .contentBlockStart _ block => p.process_content_block block
  | .contentBlockDelta _ delta =>
      match delta with
      | .textDelta t => (p, [.text t])
      | .inputJsonDelta pj =>
          ({ p with current_tool_input := p.current_tool_input ++ pj }, [])
      | .thinkingDelta t => (p, [.thinking t])
      | .unknown => (p, [])
  | .contentBlockStop _ =>
      match p.current_tool_name with
      | some name => (⟨none, ""⟩, [.toolUse name p.current_tool_input])
      | none => (p, [])
  | .messageDelta _ usage =>
      match usage with
      | some u =>
          (p, [.usage u.input_tokens u.output_tokens
            u.cache_read_input_tokens u.cache_creation_input_tokens])
      | none => (p, [])
  | .result subtype res _ _ =>
      if subtype = some "tool_result" then
        match res with
        | some rd =>
            (p, [.toolResult "tool"
              (match rd.asStr with
               | some s => s
               | none => to_string_pretty rd)])
        | none => (p, [])
      else (p, [])
  | .system _ _ => (p, [])
  | .user _ => (p, [])
  | .messageStop => (p, [])
  | .unknown => (p, [])

/-- `StreamParser::parse_line`. The untrusted `serde_json::from_str`
deserializer is a parameter `fromStr`: `none` models a deserialization error
(the logged-and-discarded branch), `some raw` a successful parse. The Rust
return type `anyhow::Result` is kept as `Except String`; the error constructor
is never used by the source. -/
def StreamParser.parse_line (fromStr : String → Option RawStreamEvent)
    (p : StreamParser) (line : String) :
    Except String (StreamParser × List StreamEvent) :=
  let l := line.trim
  if l.isEmpty then .ok (p, [])
  else
    match fromStr l with
    | none => .ok (p, [])
    | some raw => .ok (p.process_event raw)

/-- Feeding a list of already-deserialized records through the decoder in
order, collecting all emitted events (the reader task's per-line loop). -/
def runRecords (p : StreamParser) : List RawStreamEvent → StreamParser × List StreamEvent
  | [] => (p, [])
  | r :: rs =>
      let (p1, evs) := p.process_event r
      let (p2, evs2) := runRecords p1 rs
      (p2, evs ++ evs2)

/-! ## Subprocess handle (`src/claude/process.rs`)

The child process is external I/O; the handle is modelled by the data the
orchestrator feeds it (spawn configuration, stdin writes) plus the flags the
source keeps (`aborted`). -/

/-- `ClaudeProcess`. -/
structure ClaudeProcess where
  model : String
  continue_session : Bool
  resume_session : Option String
  stdin_writes : List String
  stdin_closed : Bool
  aborted : Bool
deriving DecidableEq

/-- `ClaudeProcess::new` (the successful spawn; a spawn failure is a hard error
of the whole turn and is outside the state machine modelled here). -/
def ClaudeProcess.new (model : String) (continue_session : Bool)
    (resume_session : Option String) : ClaudeProcess :=
  { model := model, continue_session := continue_session,
    resume_session := resume_session,
    stdin_writes := [], stdin_closed := false, aborted := false }

/-- `ClaudeProcess::send`: writes the message plus a trailing newline to the
child's stdin and closes it. The reader tasks it spawns surface later as
`AppMessage`s. -/
def ClaudeProcess.send (p : ClaudeProcess) (message : String) : ClaudeProcess :=
  { p with stdin_writes := p.stdin_writes ++ [message ++ "\n"], stdin_closed := true }

/-- `ClaudeProcess::abort`: idempotent kill. -/
def ClaudeProcess.abort (p : ClaudeProcess) : ClaudeProcess :=
  if p.aborted then p else { p with aborted := true }

/-! ## Orchestrator state (`src/app.rs`) -/

/-- `AppMessage` - the inbound event bus payloads. -/
inductive AppMessage where
  | claudeEvent (e : StreamEvent)
  | claudeFinished
  | claudeError (err : String)
  | bashOutput (output : String)
  | bashFinished (exit_code : Int)
  | voiceTranscription (text : String)
  | voiceError (err : String)
  | sessionMessage (fromSession : String) (message : String)
deriving DecidableEq

/-- `ui::InputMode`. -/
inductive InputMode where
  | normal
  | recording
deriving DecidableEq

/-- `Role`. -/
inductive Role where
  | user
  | assistant
  | system
  | tool
  | bash
deriving DecidableEq

/-- `ConversationContent`. -/
inductive ConversationContent where
  | text (t : String)
  | toolUse (name input : String)
  | toolResult (name result : String)
  | thinking (t : String)
  | bashCommand (command output : String) (exit_code : Int)
deriving DecidableEq

/-- `ConversationEntry`. The `chrono::DateTime` timestamp is modelled by a
`Nat` read from the clock counter threaded through the state. -/
structure ConversationEntry where
  role : Role
  content : ConversationContent
  timestamp : Nat
deriving DecidableEq

/-- The modulus of Rust `u64` wrapping arithmetic. -/
def u64Size : Nat := 2 ^ 64

/-- `TokenUsage` - the four cumulative counters. They are Rust `u64` fields
accumulated with `+=`, which wraps modulo 2^64 in the release profile (a
debug build would panic at the same point instead of continuing). -/
structure TokenUsage where
  input_tokens : Nat
  output_tokens : Nat
  cache_read_tokens : Nat
  cache_write_tokens : Nat
deriving DecidableEq

/-- `sessions::SessionInfo` (only the fields the orchestrator displays). -/
structure SessionInfo where
  id : String
  cwd : String
  task : String
deriving DecidableEq

/-- `sessions::SessionMessage` (an inbox entry; `from` is a Lean keyword, so
the field is named `fromSession`). -/
structure SessionMessage where
  fromSession : String
  message : String
  time : String
deriving DecidableEq

/-- `App` - the orchestrator state. The external handles of the Rust struct
(`terminal`, `bash_executor`, `voice_recorder`, `session_manager`,
`message_rx`/`message_tx`) are I/O endpoints with no orchestrator-visible
state and are not part of the embedding; `clock` models the wall clock read
by `chrono::Utc::now()`. -/
structure App where
  model : String
  continue_session : Bool
  resume_session : Option String
  session_id : Option String
  messages : List ConversationEntry
  input : String
  cursor_position : Nat
  input_mode : InputMode
  message_queue : List String
  claude_busy : Bool
  streaming_buffer : String
  claude_process : Option ClaudeProcess
  scroll_offset : Nat
  input_history : List String
  history_index : Option Nat
  should_quit : Bool
  status_message : Option String
  token_usage : TokenUsage
  clock : Nat
deriving DecidableEq

/-- `App::new` (the successful construction). -/
def App.initial (model : String) (continue_session : Bool)
    (resume_session : Option String) : App :=
  { model := model, continue_session := continue_session,
    resume_session := resume_session, session_id := none,
    messages := [], input := "", cursor_position := 0,
    input_mode := .normal, message_queue := [], claude_busy := false,
    streaming_buffer := "", claude_process := none, scroll_offset := 0,
    input_history := [], history_index := none, should_quit := false,
    status_message := none, token_usage := ⟨0, 0, 0, 0⟩, clock := 0 }

/-- `self.messages.push(ConversationEntry { role, content, timestamp: Utc::now() })`:
every push site of the source reads the wall clock for the timestamp; the
clock counter advances on each read. -/
def App.pushEntry (s : App) (role : Role) (content : ConversationContent) : App :=
  { s with messages := s.messages ++ [⟨role, content, s.clock⟩], clock := s.clock + 1 }

/-- Model of Rust `str::starts_with`: the pattern is a prefix of the
character sequence. -/
def strStartsWith (s pat : String) : Bool :=
  pat.data.isPrefixOf s.data

/-- Rust `Vec::pop`: removes and returns the last element. -/
def vecPop {α : Type} : List α → Option (α × List α)
  | [] => none
  | [a] => some (a, [])
  | a :: b :: rest =>
      match vecPop (b :: rest) with
      | none => none
      | some (x, r) => some (x, a :: r)

/-- In-place mutation of the last element of a vector
(`self.messages.last_mut()`). -/
def modifyLast {α : Type} (f : α → α) : List α → List α
  | [] => []
  | [a] => [f a]
  | a :: b :: rest => a :: modifyLast f (b :: rest)

/-- `App::build_context`: scan the five most recent entries for bash commands
and render them, most recent last. -/
def App.build_context (s : App) : String :=
  let recent_bash := (s.messages.reverse.take 5).filterMap fun m =>
    match m.content with
    | .bashCommand command output exit_code =>
        some ("$ " ++ command ++ "\n" ++ output ++ "\n(exit code: " ++ toString exit_code ++ ")")
    | _ => none
  if recent_bash.isEmpty then ""
  else "[Recent terminal activity]\n" ++ String.intercalate "\n\n" recent_bash.reverse ++ "\n"

/-- `App::send_to_claude`. While busy the message is queued; otherwise a user
entry is appended, the streaming buffer is cleared, a fresh process is spawned
(consuming `resume_session` via `take()`) and the context-prefixed message is
written to it. Spawn/write failures are hard errors outside this state
machine; the embedding is the successful path. -/
def App.send_to_claude (s : App) (message : String) : App :=
  if s.claude_busy then
    { s with message_queue := s.message_queue ++ [message],
             status_message := some ("Queued (" ++ toString (s.message_queue.length + 1) ++ " pending)") }
  else
    let s1 := s.pushEntry .user (.text message)
    let context := s1.build_context
    let s2 := { s1 with claude_busy := true, streaming_buffer := "" }
    let proc := ClaudeProcess.new s2.model s2.continue_session s2.resume_session
    let s3 := { s2 with resume_session := none }
    let full_message := if context.isEmpty then message else context ++ "\n\n" ++ message
    { s3 with claude_process := some (proc.send full_message), scroll_offset := 0 }

/-- `App::execute_bash`: append the provisional `$ command` text entry; the
command itself runs in an external task whose results arrive later as
`bashOutput`/`bashFinished` bus events. -/
def App.execute_bash (s : App) (command : String) : App :=
  s.pushEntry .bash (.text ("$ " ++ command))

/-- `App::handle_claude_event`. -/
def App.handle_claude_event (s : App) : StreamEvent → App
  | .text t => { s with streaming_buffer := s.streaming_buffer ++ t }
  | .toolUse name input =>
      let s1 :=
        if s.streaming_buffer.isEmpty then s
        else { s.pushEntry .assistant (.text s.streaming_buffer) with streaming_buffer := "" }
      s1.pushEntry .tool (.toolUse name input)
  | .toolResult name result => s.pushEntry .tool (.toolResult name result)
  | .thinking t => s.pushEntry .assistant (.thinking t)
  | .usage a b c d =>
      -- `+=` on the u64 counters: wrapping (mod 2^64) in the release profile.
      { s with token_usage :=
          ⟨(s.token_usage.input_tokens + a) % u64Size,
           (s.token_usage.output_tokens + b) % u64Size,
           (s.token_usage.cache_read_tokens + c) % u64Size,
           (s.token_usage.cache_write_tokens + d) % u64Size⟩ }

/-- `App::handle_app_message`. -/
def App.handle_app_message (s : App) : AppMessage → App
  | .claudeEvent e => s.handle_claude_event e
  | .claudeFinished =>
      let s1 := { s with claude_busy := false, claude_process := none }
      let s2 :=
        if s1.streaming_buffer.isEmpty then s1
        else { s1.pushEntry .assistant (.text s1.streaming_buffer) with streaming_buffer := "" }
      match vecPop s2.message_queue with
      | some (queued, rest) =>
          App.send_to_claude
            { s2 with message_queue := rest,
                      status_message := some (toString rest.length ++ " more queued") }
            queued
      | none => s2
  | .claudeError err =>
      let s1 := { s with claude_busy := false, claude_process := none }
      s1.pushEntry .system (.text ("Error: " ++ err))
  | .bashOutput output =>
      { s with messages := modifyLast (fun e =>
          match e.content with
          | .text t =>
              if strStartsWith t "$ " then
                { e with content := .bashCommand (t.drop 2) output 0 }
              else e
          | _ => e) s.messages }
  | .bashFinished exit_code =>
      { s with messages := modifyLast (fun e =>
          match e.content with
          | .bashCommand c o _ => { e with content := .bashCommand c o exit_code }
          | _ => e) s.messages }
  | .voiceTranscription text =>
      { s with input := s.input ++ text,
               cursor_position := (s.input ++ text).length,
               status_message := some "Transcription complete" }
  | .voiceError err =>
      { s with input_mode := .normal, status_message := some ("Voice error: " ++ err) }
  | .sessionMessage fromSession message =>
      s.pushEntry .system (.text ("[Session " ++ fromSession ++ "]: " ++ message))

/-- The `Ctrl+C` arm of `App::handle_normal_mode_key`: abort the process and
clear the busy flag when busy (nothing happens if no process handle is live),
otherwise clear the input line. -/
def App.ctrl_c (s : App) : App :=
  if s.claude_busy then
    match s.claude_process with
    | some p =>
        { s with claude_process := some p.abort, claude_busy := false,
                 status_message := some "Interrupted" }
    | none => s
  else
    { s with input := "", cursor_position := 0 }

/-- Rust `str::splitn(2, ' ')`: at most two pieces, split at the first space. -/
def splitTwoAux : List Char → List Char → List String
  | acc, [] => [⟨acc.reverse⟩]
  | acc, c :: cs => if c = ' ' then [⟨acc.reverse⟩, ⟨cs⟩] else splitTwoAux (c :: acc) cs

/-- `input[1..].splitn(2, ' ')` on a whole string. -/
def splitTwo (s : String) : List String := splitTwoAux [] s.data

/-- The `/help` text of `App::handle_slash_command`. -/
def helpText : String :=
  "Commands:\n  !<cmd>         Run bash command\n  /quit          Exit\n  /clear         Clear conversation\n  /model <name>  Set model\n  /sessions      List active sessions\n  /send <id> <m> Send message to session\n  /broadcast <m> Broadcast to all sessions\n  /inbox         Read incoming messages\n  *              Toggle voice recording\n  Ctrl+C         Interrupt Claude\n  Ctrl+Q         Quit"

/-- `App::handle_slash_command`. The session-manager collaborator is external;
its query results (`list_sessions`, `read_inbox`) are passed in as arguments,
and `send_message`/`broadcast` only set the status line here. -/
def App.handle_slash_command (s : App) (input : String)
    (sessions : List SessionInfo) (inbox : List SessionMessage) : App :=
  let parts := splitTwo (input.drop 1)
  let command := parts.headD ""
  let args := (parts.get? 1).getD ""
  if command = "quit" ∨ command = "q" then { s with should_quit := true }
  else if command = "clear" then { s with messages := [], scroll_offset := 0 }
  else if command = "model" then
    if args.isEmpty then { s with status_message := some ("Current model: " ++ s.model) }
    else { s with model := args, status_message := some ("Model set to: " ++ args) }
  else if command = "sessions" then
    let msg :=
      if sessions.isEmpty then "No other active sessions"
      else String.intercalate "\n"
        (sessions.map fun si => "  " ++ si.id ++ " (" ++ si.cwd ++ ") - " ++ si.task)
    s.pushEntry .system (.text ("Active sessions:\n" ++ msg))
  else if command = "send" then
    let sendParts := splitTwo args
    if sendParts.length = 2 then
      { s with status_message := some ("Sent to " ++ sendParts.headD "") }
    else { s with status_message := some "Usage: /send <session-id> <message>" }
  else if command = "broadcast" then
    if args.isEmpty then { s with status_message := some "Usage: /broadcast <message>" }
    else { s with status_message := some "Broadcast sent" }
  else if command = "inbox" then
    if inbox.isEmpty then { s with status_message := some "No messages" }
    else inbox.foldl
      (fun acc m =>
        acc.pushEntry .system
          (.text ("[" ++ m.time ++ "] " ++ m.fromSession ++ ": " ++ m.message)))
      s
  else if command = "help" then s.pushEntry .system (.text helpText)
  else { s with status_message := some ("Unknown command: /" ++ command) }

/-- `App::submit_input`: take the input line, record it in the history, then
dispatch on its first character (`!` bash, `/` slash command, otherwise a
message to the assistant). -/
def App.submit_input (s : App) (sessions : List SessionInfo)
    (inbox : List SessionMessage) : App :=
  let input := s.input
  let s1 := { s with input := "", cursor_position := 0 }
  let s2 :=
    if input.isEmpty then s1
    else { s1 with input_history := s1.input_history ++ [input], history_index := none }
  if strStartsWith input "!" then s2.execute_bash ((input.drop 1).trim)
  else if strStartsWith input "/" then s2.handle_slash_command input sessions inbox
  else s2.send_to_claude input

/-- The orchestrator operations: everything that steps the `App` state
(inbound bus events, slash commands, message submission, bash execution,
the interrupt key, and the input-submit dispatcher). -/
inductive Op where
  | appMsg (m : AppMessage)
  | slash (input : String) (sessions : List SessionInfo) (inbox : List SessionMessage)
  | userMessage (m : String)
  | bash (command : String)
  | interrupt
  | submit (sessions : List SessionInfo) (inbox : List SessionMessage)

/-- One orchestrator step. -/
def App.step (s : App) : Op → App
  | .appMsg m => s.handle_app_message m
  | .slash input sessions inbox => s.handle_slash_command input sessions inbox
  | .userMessage m => s.send_to_claude m
  | .bash command => s.execute_bash command
  | .interrupt => s.ctrl_c
  | .submit sessions inbox => s.submit_input sessions inbox

/-! ## Helper lemmas -/

/-- The concatenation, in order, of the payloads of the `text` events in a
decoded event sequence. -/
def textConcat (evts : List StreamEvent) : String :=
  String.join (evts.filterMap fun e =>
    match e with
    | .text t => some t
    | _ => none)

theorem join_singleton (s : String) : String.join [s] = s := by
  cases s
  rfl

theorem runRecords_textDeltas (p : StreamParser) (texts : List String) :
    runRecords p (texts.map fun t => .contentBlockDelta 0 (.textDelta t))
      = (p, texts.map .text) := by
  induction texts with
  | nil => rfl
  | cons t rest ih =>
      simp only [List.map_cons, runRecords, StreamParser.process_event, ih,
        List.singleton_append]

/-! ## Claim C4 -/

/-- C4: for every input line - empty, non-JSON, or carrying an unrecognized
type tag - `parse_line` returns successfully (never an error), and in the
malformed/unknown cases it returns zero events with the accumulator state
unchanged, so decoding continues on subsequent lines. -/
theorem c4_decode_never_errors (fromStr : String → Option RawStreamEvent)
    (p : StreamParser) (line : String) :
    (∃ out, StreamParser.parse_line fromStr p line = .ok out) ∧
    ((line.trim.isEmpty = true ∨ fromStr line.trim = none ∨
        fromStr line.trim = some .unknown) →
      StreamParser.parse_line fromStr p line = .ok (p, [])) := by
  constructor
  · unfold StreamParser.parse_line
    by_cases h : (line.trim).isEmpty
    · exact ⟨(p, []), by simp [h]⟩
    · cases hf : fromStr line.trim with
      | none => exact ⟨(p, []), by simp [h, hf]⟩
      | some raw => exact ⟨p.process_event raw, by simp [h, hf]⟩
  · intro h
    unfold StreamParser.parse_line
    rcases h with h | h | h
    · simp [h]
    · by_cases he : (line.trim).isEmpty
      · simp [he]
      · simp [he, h]
    · by_cases he : (line.trim).isEmpty
      · simp [he]
      · simp [he, h, StreamParser.process_event]

/-- Witness for C4 at the spec's own example: the non-JSON line `not json`
with a failing deserializer decodes to zero events without an error. -/
theorem c4_decode_never_errors_witness :
    (("not json".trim.isEmpty = true ∨
        (fun _ => (none : Option RawStreamEvent)) "not json".trim = none ∨
        (fun _ => (none : Option RawStreamEvent)) "not json".trim = some .unknown)) ∧
      StreamParser.parse_line (fun _ => none) StreamParser.new "not json"
        = .ok (StreamParser.new, []) :=
  ⟨Or.inr (Or.inl rfl),
    (c4_decode_never_errors (fun _ => none) StreamParser.new "not json").2
      (Or.inr (Or.inl rfl))⟩

/-! ## Claim C6 -/

/-- C6: for a single content block, decoding a well-formed sequence of
text-delta records and concatenating the payloads of the resulting `text`
events in order yields the same string as decoding one record that presents
the full text in a single text content block, from any accumulator states. -/
theorem c6_text_deltas_equal_whole (p q : StreamParser) (texts : List String) :
    textConcat (runRecords p (texts.map fun t => .contentBlockDelta 0 (.textDelta t))).2
      = textConcat (runRecords q
          [.contentBlockStart 0 (.text (String.join texts))]).2 := by
  rw [runRecords_textDeltas]
  show textConcat (texts.map .text) = textConcat [.text (String.join texts)]
  simp only [textConcat, List.filterMap_map, List.filterMap_cons, List.filterMap_nil]
  have hsome : ((fun e =>
      match e with
      | StreamEvent.text t => some t
      | _ => none) ∘ StreamEvent.text) = some := rfl
  rw [hsome, List.filterMap_some, join_singleton]

/-! ## Claim C1 -/

/-- C1 (code bug evaluation): a tool invocation delivered as a block-start
(with the streamed placeholder input, the empty object) followed by a
partial-fragment input delta and a block-close emits its single `toolUse`
event already at block-start, with input equal to the serialized placeholder
(the two-character brace pair) rather than the concatenation of the
fragments; the fragment is left stuck in the accumulator and the block-close
emits nothing.  The serialized start input is never the empty string, so the
accumulate-then-emit-at-close branch of `process_content_block` is
unreachable, contrary to its own comment and to the claim.  Second conjunct:
a tool invocation whose input is present whole at block-start emits exactly
one event immediately and the block-close adds none, as the claim states. -/
theorem c1_streamed_tool_input_discarded :
    runRecords StreamParser.new
        [.contentBlockStart 0 (.toolUse "toolu_1" "Read" (.obj [])),
         .contentBlockDelta 0 (.inputJsonDelta "\x7b\"file_path\": \"f.txt\"\x7d"),
         .contentBlockStop 0]
      = (⟨none, "\x7b\"file_path\": \"f.txt\"\x7d"⟩, [.toolUse "Read" "\x7b\x7d"]) ∧
    runRecords StreamParser.new
        [.contentBlockStart 0 (.toolUse "toolu_2" "Bash" (.obj [("command", .str "ls")])),
         .contentBlockStop 0]
      = (⟨none, ""⟩, [.toolUse "Bash" "\x7b\n  \"command\": \"ls\"\n\x7d"]) := by
  constructor
  · rfl
  · rfl

/-! ## List/string helper lemmas for the orchestrator claims -/

theorem strStartsWith_dollar (cmd : String) : strStartsWith ("$ " ++ cmd) "$ " = true := by
  cases cmd with
  | mk d =>
      show List.isPrefixOf ['$', ' '] ('$' :: ' ' :: d) = true
      simp [List.isPrefixOf]

theorem dollar_drop_two (cmd : String) : ("$ " ++ cmd).drop 2 = cmd := by
  cases cmd with
  | mk d =>
      rw [String.drop_eq]
      have h : ("$ " ++ (⟨d⟩ : String)).data = '$' :: ' ' :: d := rfl
      rw [h]
      rfl

theorem modifyLast_concat {α : Type} (f : α → α) (l : List α) (a : α) :
    modifyLast f (l ++ [a]) = l ++ [f a] := by
  induction l with
  | nil => rfl
  | cons b rest ih =>
      cases rest with
      | nil => rfl
      | cons c rest2 =>
          simp only [List.cons_append] at ih ⊢
          rw [show modifyLast f (b :: c :: (rest2 ++ [a]))
              = b :: modifyLast f (c :: (rest2 ++ [a])) from rfl]
          rw [ih]

theorem vecPop_concat {α : Type} (l : List α) (a : α) :
    vecPop (l ++ [a]) = some (a, l) := by
  induction l with
  | nil => rfl
  | cons b rest ih =>
      cases rest with
      | nil => rfl
      | cons c rest2 =>
          simp only [List.cons_append] at ih ⊢
          rw [show vecPop (b :: c :: (rest2 ++ [a]))
              = (match vecPop (c :: (rest2 ++ [a])) with
                 | none => none
                 | some (x, r) => some (x, b :: r)) from rfl]
          rw [ih]

/-! ## Claim C7 -/

/-- C7: with the busy flag set, a turn-failed event clears the busy flag,
appends exactly one system entry recording the failure, and leaves the
pending outbound queue unchanged. -/
theorem c7_turn_failed_system_entry (s : App) (err : String)
    (_hb : s.claude_busy = true) :
    (s.handle_app_message (.claudeError err)).claude_busy = false ∧
    (s.handle_app_message (.claudeError err)).messages
      = s.messages ++ [⟨.system, .text ("Error: " ++ err), s.clock⟩] ∧
    (s.handle_app_message (.claudeError err)).message_queue = s.message_queue := by
  refine ⟨rfl, rfl, rfl⟩

/-- Witness for C7: a busy state receiving `claudeError "boom"`. -/
theorem c7_turn_failed_system_entry_witness :
    ({ App.initial "claude" false none with claude_busy := true } : App).claude_busy = true ∧
    (({ App.initial "claude" false none with
        claude_busy := true } : App).handle_app_message (.claudeError "boom")).claude_busy = false ∧
    (({ App.initial "claude" false none with
        claude_busy := true } : App).handle_app_message (.claudeError "boom")).messages
      = [⟨.system, .text "Error: boom", 0⟩] ∧
    (({ App.initial "claude" false none with
        claude_busy := true } : App).handle_app_message (.claudeError "boom")).message_queue = [] :=
  ⟨rfl, c7_turn_failed_system_entry
    { App.initial "claude" false none with claude_busy := true } "boom" rfl⟩

/-! ## Claim C8 -/

/-- C8: creating the provisional shell entry, then applying one output-chunk
event and one finished(0) event, yields a single conversation entry carrying
the full output and exit code 0 (never two entries), and the two events do
not change the number of conversation entries. -/
theorem c8_shell_entry_stays_single (s : App) (command output : String) :
    (((s.execute_bash command).handle_app_message
        (.bashOutput output)).handle_app_message (.bashFinished 0)).messages
      = s.messages ++ [⟨.bash, .bashCommand command output 0, s.clock⟩] ∧
    (((s.execute_bash command).handle_app_message
        (.bashOutput output)).handle_app_message (.bashFinished 0)).messages.length
      = (s.execute_bash command).messages.length := by
  have h1 : ((s.execute_bash command).handle_app_message (.bashOutput output)).messages
      = s.messages ++ [⟨.bash, .bashCommand command output 0, s.clock⟩] := by
    show modifyLast _ (s.messages ++ [⟨.bash, .text ("$ " ++ command), s.clock⟩])
        = s.messages ++ [⟨.bash, .bashCommand command output 0, s.clock⟩]
    rw [modifyLast_concat]
    simp [strStartsWith_dollar, dollar_drop_two]
  constructor
  · show modifyLast _ ((s.execute_bash command).handle_app_message (.bashOutput output)).messages
        = s.messages ++ [⟨.bash, .bashCommand command output 0, s.clock⟩]
    rw [h1, modifyLast_concat]
  · show (modifyLast _ ((s.execute_bash command).handle_app_message (.bashOutput output)).messages).length
        = (s.execute_bash command).messages.length
    rw [h1, modifyLast_concat]
    show (s.messages ++ [_]).length = (s.messages ++ [_]).length
    simp

/-! ## Claim C9 -/

/-- C9: a shell output-chunk event rewrites the most recent conversation
entry exactly when that entry's content is plain text beginning with the
two-character `$ ` marker - the role is not inspected - turning it into a
shell-command entry whose output is the chunk and whose exit code is
provisionally 0; in every other case (different last content, or an empty
conversation) the state is left entirely unchanged. -/
theorem c9_bash_output_iff_dollar_text (s : App) (output : String) :
    (∀ init e t, s.messages = init ++ [e] → e.content = .text t →
        strStartsWith t "$ " = true →
        s.handle_app_message (.bashOutput output)
          = { s with messages :=
              init ++ [{ e with content := .bashCommand (t.drop 2) output 0 }] }) ∧
    (∀ init e, s.messages = init ++ [e] →
        (∀ t, e.content = .text t → strStartsWith t "$ " = false) →
        s.handle_app_message (.bashOutput output) = s) ∧
    (s.messages = [] → s.handle_app_message (.bashOutput output) = s) := by
  refine ⟨?_, ?_, ?_⟩
  · intro init e t hm ht hsw
    show { s with messages := modifyLast _ s.messages }
        = { s with messages := init ++ [{ e with content := .bashCommand (t.drop 2) output 0 }] }
    rw [hm, modifyLast_concat, ht]
    simp [hsw]
  · intro init e hm hnot
    show { s with messages := modifyLast _ s.messages } = s
    rw [hm, modifyLast_concat]
    have he : (match e.content with
        | ConversationContent.text t =>
            if strStartsWith t "$ " then
              { e with content := .bashCommand (t.drop 2) output 0 }
            else e
        | _ => e) = e := by
      cases hc : e.content with
      | text t => simp [hnot t hc]
      | _ => rfl
    rw [he, ← hm]
  · intro hm
    show { s with messages := modifyLast _ s.messages } = s
    rw [hm]
    show { s with messages := ([] : List ConversationEntry) } = s
    rw [← hm]

/-- Witness for C9: the mutating case on a `$ ls` bash entry, the untouched
case on a plain user entry, and the empty-conversation case. -/
theorem c9_bash_output_iff_dollar_text_witness :
    (({ App.initial "claude" false none with
          messages := [⟨.bash, .text "$ ls", 0⟩] } : App).messages
        = [] ++ [⟨.bash, .text "$ ls", 0⟩] ∧
      (⟨.bash, .text "$ ls", 0⟩ : ConversationEntry).content = .text "$ ls" ∧
      strStartsWith "$ ls" "$ " = true ∧
      ({ App.initial "claude" false none with
          messages := [⟨.bash, .text "$ ls", 0⟩] } : App).handle_app_message
          (.bashOutput "a.txt")
        = { ({ App.initial "claude" false none with
              messages := [⟨.bash, .text "$ ls", 0⟩] } : App) with
            messages := [] ++ [⟨.bash, .bashCommand "ls" "a.txt" 0, 0⟩] }) ∧
    (({ App.initial "claude" false none with
          messages := [⟨.user, .text "hi", 0⟩] } : App).handle_app_message
          (.bashOutput "a.txt")
        = { App.initial "claude" false none with messages := [⟨.user, .text "hi", 0⟩] }) ∧
    ((App.initial "claude" false none).handle_app_message (.bashOutput "a.txt")
        = App.initial "claude" false none) := by
  refine ⟨⟨rfl, rfl, by decide, ?_⟩, ?_, ?_⟩
  · have := (c9_bash_output_iff_dollar_text
      { App.initial "claude" false none with
        messages := [⟨.bash, .text "$ ls", 0⟩] } "a.txt").1
      [] ⟨.bash, .text "$ ls", 0⟩ "$ ls" rfl rfl (by decide)
    simpa using this
  · exact (c9_bash_output_iff_dollar_text
      { App.initial "claude" false none with
        messages := [⟨.user, .text "hi", 0⟩] } "a.txt").2.1
      [] ⟨.user, .text "hi", 0⟩ rfl (by intro t ht; cases ht; decide)
  · exact (c9_bash_output_iff_dollar_text
      (App.initial "claude" false none) "a.txt").2.2 rfl

/-! ## Claim C3 -/

/-- C3: while busy, two submitted messages are both queued in order (neither
reaches the subprocess: the transcript and process handle are untouched and
the state stays busy), and a turn-completion event releases exactly one
queued message, taken from the end of the pending list (last-submitted-first):
the queue loses its last element, which starts the next turn as the new user
entry. -/
theorem c3_busy_queue_is_lifo :
    (∀ (s : App) (m1 m2 : String), s.claude_busy = true →
        ((s.send_to_claude m1).send_to_claude m2).message_queue
            = s.message_queue ++ [m1, m2] ∧
        ((s.send_to_claude m1).send_to_claude m2).messages = s.messages ∧
        ((s.send_to_claude m1).send_to_claude m2).claude_process = s.claude_process ∧
        ((s.send_to_claude m1).send_to_claude m2).claude_busy = true) ∧
    (∀ (s : App) (q : List String) (m : String),
        s.message_queue = q ++ [m] → s.streaming_buffer = "" →
        (s.handle_app_message .claudeFinished).message_queue = q ∧
        (s.handle_app_message .claudeFinished).claude_busy = true ∧
        (s.handle_app_message .claudeFinished).messages
          = s.messages ++ [⟨.user, .text m, s.clock⟩]) := by
  constructor
  · intro s m1 m2 hb
    simp [App.send_to_claude, hb, List.append_assoc]
  · intro s q m hq hbuf
    obtain ⟨mo, cs, rs, si, ms, inp, cur, im, mq, cb, sb, cp, so, ihist, hidx, sq, sm, tu, ck⟩ := s
    simp only at hq hbuf
    subst hq hbuf
    simp [App.handle_app_message, App.send_to_claude, App.pushEntry, vecPop_concat,
      String.isEmpty_iff]

/-- Witness for C3: from a busy state, submitting `"M1"` then `"M2"` queues
both, and the completion event then releases `"M2"`, the last-submitted one. -/
theorem c3_busy_queue_is_lifo_witness :
    (({ App.initial "claude" false none with claude_busy := true } : App).claude_busy = true ∧
      ((({ App.initial "claude" false none with
            claude_busy := true } : App).send_to_claude "M1").send_to_claude "M2").message_queue
        = ["M1", "M2"]) ∧
    (({ App.initial "claude" false none with
        claude_busy := true,
          message_queue := ["M1", "M2"] } : App).message_queue = ["M1"] ++ ["M2"] ∧
      ({ App.initial "claude" false none with
        claude_busy := true,
          message_queue := ["M1", "M2"] } : App).streaming_buffer = "" ∧
      (({ App.initial "claude" false none with
        claude_busy := true,
            message_queue := ["M1", "M2"] } : App).handle_app_message
          .claudeFinished).message_queue = ["M1"] ∧
      (({ App.initial "claude" false none with
        claude_busy := true,
            message_queue := ["M1", "M2"] } : App).handle_app_message
          .claudeFinished).messages = [⟨.user, .text "M2", 0⟩]) := by
  constructor
  · refine ⟨rfl, ?_⟩
    have := c3_busy_queue_is_lifo.1
      { App.initial "claude" false none with claude_busy := true } "M1" "M2" rfl
    simpa using this.1
  · refine ⟨rfl, rfl, ?_, ?_⟩
    · exact (c3_busy_queue_is_lifo.2
        { App.initial "claude" false none with
        claude_busy := true,
          message_queue := ["M1", "M2"] } ["M1"] "M2" rfl rfl).1
    · have := (c3_busy_queue_is_lifo.2
        { App.initial "claude" false none with
        claude_busy := true,
          message_queue := ["M1", "M2"] } ["M1"] "M2" rfl rfl).2.2
      simpa using this

/-! ## Claim C2 -/

/-- C2 counterexample: from a busy state with partial text `"partial"` in the
streaming buffer, the interrupt clears the busy flag, but when the aborted
subprocess's reader task later observes end-of-stream (delivering the
`claudeFinished` bus event, which the killed process's reader always sends),
the partial text IS finalized into an assistant transcript entry - the claim
says no assistant entry for that partial output ever appears. -/
theorem c2_abort_counterexample :
    (⟨Role.assistant, .text "partial", 0⟩ : ConversationEntry) ∈
      ((App.ctrl_c { App.initial "claude" false none with
          claude_busy := true, streaming_buffer := "partial",
          claude_process := some (ClaudeProcess.new "claude" false none) }).handle_app_message
        .claudeFinished).messages := by
  decide

/-- C2 amended: aborting an active turn clears the busy flag immediately and,
at that moment, leaves the transcript, the streaming buffer and the queue
untouched (the process handle is marked aborted); the partial text is NOT
discarded for good - when the aborted subprocess's reader task later delivers
its end-of-stream event, the leftover buffer is finalized into an assistant
transcript entry (stated here with an empty pending queue). -/
theorem c2_abort_clears_busy_but_finalizes_later (s : App) (p : ClaudeProcess)
    (hb : s.claude_busy = true) (hp : s.claude_process = some p) :
    s.ctrl_c.claude_busy = false ∧
    s.ctrl_c.messages = s.messages ∧
    s.ctrl_c.streaming_buffer = s.streaming_buffer ∧
    s.ctrl_c.message_queue = s.message_queue ∧
    s.ctrl_c.claude_process = some p.abort ∧
    (s.streaming_buffer.isEmpty = false → s.message_queue = [] →
      (s.ctrl_c.handle_app_message .claudeFinished).messages
        = s.messages ++ [⟨.assistant, .text s.streaming_buffer, s.clock⟩]) := by
  obtain ⟨mo, cs, rs, si, ms, inp, cur, im, mq, cb, sb, cp, so, ihist, hidx, sq, sm, tu, ck⟩ := s
  simp only at hb hp
  subst hb hp
  refine ⟨rfl, rfl, rfl, rfl, rfl, ?_⟩
  intro hbuf hq
  simp only at hbuf hq
  subst hq
  simp [App.ctrl_c, App.handle_app_message, App.pushEntry, hbuf, vecPop]

/-- Witness for C2 amended at a concrete busy state with buffer `"par"`. -/
theorem c2_abort_clears_busy_but_finalizes_later_witness :
    ({ App.initial "claude" false none with
        claude_busy := true,
        streaming_buffer := "par",
        claude_process := some (ClaudeProcess.new "claude" false none) } : App).claude_busy
      = true ∧
    ({ App.initial "claude" false none with
        claude_busy := true,
        streaming_buffer := "par",
        claude_process := some (ClaudeProcess.new "claude" false none) } : App).claude_process
      = some (ClaudeProcess.new "claude" false none) ∧
    ({ App.initial "claude" false none with
        claude_busy := true,
        streaming_buffer := "par",
        claude_process := some (ClaudeProcess.new "claude" false none) } :
        App).ctrl_c.claude_busy = false ∧
    (({ App.initial "claude" false none with
        claude_busy := true,
        streaming_buffer := "par",
        claude_process := some (ClaudeProcess.new "claude" false none) } :
        App).ctrl_c.handle_app_message .claudeFinished).messages
      = [⟨.assistant, .text "par", 0⟩] := by
  have h := c2_abort_clears_busy_but_finalizes_later
    { App.initial "claude" false none with
        claude_busy := true,
        streaming_buffer := "par",
        claude_process := some (ClaudeProcess.new "claude" false none) }
    (ClaudeProcess.new "claude" false none) rfl rfl
  refine ⟨rfl, rfl, h.1, ?_⟩
  have := h.2.2.2.2.2 (by decide) rfl
  simpa using this

/-! ## Claim C10 -/

/-- C10 counterexample: with a busy turn holding `"Hi"` in the streaming
buffer, a turn-failed event leaves the buffer in place, and the
`claudeFinished` event the reader task sends right after the read error
finalizes that leftover buffer into an assistant transcript entry - so the
buffer's text DOES reach the transcript, contrary to the claim. -/
theorem c10_buffer_counterexample :
    (⟨Role.assistant, .text "Hi", 1⟩ : ConversationEntry) ∈
      ((({ App.initial "claude" false none with
        claude_busy := true,
            streaming_buffer := "Hi",
            claude_process := some (ClaudeProcess.new "claude" false none) } :
          App).handle_app_message (.claudeError "read failed")).handle_app_message
        .claudeFinished).messages := by
  decide

/-- C10 amended: a turn-failed event leaves the streaming buffer unchanged
(neither finalized nor cleared), and submitting the next message while idle
clears it; but the leftover text can still reach the transcript: the reader
task emits end-of-stream after a read error, and that `claudeFinished` event
finalizes the leftover buffer into an assistant entry (stated here with an
empty pending queue). -/
theorem c10_turn_failed_keeps_buffer (s : App) (err : String) :
    (s.handle_app_message (.claudeError err)).streaming_buffer = s.streaming_buffer ∧
    (∀ m, s.claude_busy = false → (s.send_to_claude m).streaming_buffer = "") ∧
    (s.streaming_buffer.isEmpty = false → s.message_queue = [] →
      ((s.handle_app_message (.claudeError err)).handle_app_message
          .claudeFinished).messages
        = s.messages ++ [⟨.system, .text ("Error: " ++ err), s.clock⟩,
            ⟨.assistant, .text s.streaming_buffer, s.clock + 1⟩]) := by
  refine ⟨rfl, ?_, ?_⟩
  · intro m hb
    simp [App.send_to_claude, hb, App.pushEntry]
  · intro hbuf hq
    obtain ⟨mo, cs, rs, si, ms, inp, cur, im, mq, cb, sb, cp, so, ihist, hidx, sq, sm, tu, ck⟩ := s
    simp only at hbuf hq
    subst hq
    simp [App.handle_app_message, App.pushEntry, hbuf, vecPop]

/-- Witness for C10 amended at a concrete failing turn with buffer `"Hi"`. -/
theorem c10_turn_failed_keeps_buffer_witness :
    (({ App.initial "claude" false none with
        claude_busy := true,
        streaming_buffer := "Hi" } : App).handle_app_message
        (.claudeError "boom")).streaming_buffer = "Hi" ∧
    ((App.initial "claude" false none).send_to_claude "next").streaming_buffer = "" ∧
    ((({ App.initial "claude" false none with
        claude_busy := true,
          streaming_buffer := "Hi" } : App).handle_app_message
          (.claudeError "boom")).handle_app_message .claudeFinished).messages
      = [⟨.system, .text "Error: boom", 0⟩, ⟨.assistant, .text "Hi", 1⟩] := by
  have h := c10_turn_failed_keeps_buffer
    { App.initial "claude" false none with
        claude_busy := true,
        streaming_buffer := "Hi" } "boom"
  refine ⟨h.1,
    (c10_turn_failed_keeps_buffer (App.initial "claude" false none) "boom").2.1 "next" rfl, ?_⟩
  have := h.2.2 (by decide) rfl
  simpa using this

/-! ## Claim C5 -/

/-- Componentwise order on the four usage counters. -/
def TokenUsage.le (a b : TokenUsage) : Prop :=
  a.input_tokens ≤ b.input_tokens ∧ a.output_tokens ≤ b.output_tokens ∧
  a.cache_read_tokens ≤ b.cache_read_tokens ∧ a.cache_write_tokens ≤ b.cache_write_tokens

theorem tu_send_to_claude (s : App) (m : String) :
    (s.send_to_claude m).token_usage = s.token_usage := by
  by_cases h : s.claude_busy <;> simp [App.send_to_claude, h, App.pushEntry]

theorem tu_inbox_fold (l : List SessionMessage) (s : App) :
    (l.foldl (fun acc m =>
        acc.pushEntry .system
          (.text ("[" ++ m.time ++ "] " ++ m.fromSession ++ ": " ++ m.message))) s).token_usage
      = s.token_usage := by
  induction l generalizing s with
  | nil => rfl
  | cons m rest ih =>
      rw [List.foldl_cons, ih]
      rfl

theorem tu_handle_slash_command (s : App) (input : String)
    (sessions : List SessionInfo) (inbox : List SessionMessage) :
    (s.handle_slash_command input sessions inbox).token_usage = s.token_usage := by
  unfold App.handle_slash_command
  dsimp only
  repeat' split
  all_goals first
    | rfl
    | exact tu_inbox_fold _ _

theorem tu_ctrl_c (s : App) : s.ctrl_c.token_usage = s.token_usage := by
  unfold App.ctrl_c
  by_cases h : s.claude_busy
  · cases hp : s.claude_process <;> simp [h, hp]
  · simp [h]

theorem tu_handle_claude_event_nonusage (s : App) (e : StreamEvent)
    (h : ∀ a b c d, e ≠ .usage a b c d) :
    (s.handle_claude_event e).token_usage = s.token_usage := by
  cases e with
  | text t => rfl
  | toolUse n i =>
      unfold App.handle_claude_event
      split_ifs <;> rfl
  | toolResult n r => rfl
  | thinking t => rfl
  | usage a b c d => exact absurd rfl (h a b c d)

theorem tu_claude_finished (s : App) :
    (s.handle_app_message .claudeFinished).token_usage = s.token_usage := by
  obtain ⟨mo, cs, rs, si, ms, inp, cur, im, mq, cb, sb, cp, so, ihist, hidx, sq, sm, tu, ck⟩ := s
  show (App.handle_app_message _ .claudeFinished).token_usage = tu
  unfold App.handle_app_message
  by_cases hbuf : sb.isEmpty
  · simp only [hbuf]
    cases hv : vecPop mq with
    | none => simp [hv]
    | some pr =>
        obtain ⟨queued, rest⟩ := pr
        simp [hv, tu_send_to_claude]
  · simp only [hbuf]
    cases hv : vecPop mq with
    | none => simp [hv, App.pushEntry]
    | some pr =>
        obtain ⟨queued, rest⟩ := pr
        simp [hv, tu_send_to_claude, App.pushEntry]

theorem tu_handle_app_message_nonusage (s : App) (m : AppMessage)
    (h : ∀ a b c d, m ≠ .claudeEvent (.usage a b c d)) :
    (s.handle_app_message m).token_usage = s.token_usage := by
  cases m with
  | claudeEvent e =>
      exact tu_handle_claude_event_nonusage s e
        (fun a b c d he => h a b c d (by rw [he]))
  | claudeFinished => exact tu_claude_finished s
  | claudeError err => rfl
  | bashOutput o => rfl
  | bashFinished c => rfl
  | voiceTranscription t => rfl
  | voiceError e => rfl
  | sessionMessage f msg => rfl

theorem tu_submit_input (s : App) (sessions : List SessionInfo)
    (inbox : List SessionMessage) :
    (s.submit_input sessions inbox).token_usage = s.token_usage := by
  unfold App.submit_input
  dsimp only
  repeat' split
  all_goals first
    | rfl
    | exact tu_handle_slash_command _ _ _ _
    | exact tu_send_to_claude _ _

/-- C5 counterexample: the counters are u64 values accumulated with wrapping
`+=`, so they are NOT monotonically non-decreasing over every usage event:
from process start, a usage event carrying 2^64 - 1 input tokens followed by
one carrying 1 input token wraps the input counter from 2^64 - 1 back down
to 0 - a decrease, refuting the unbounded monotonicity conjunct of the
claim. -/
theorem c5_wrap_counterexample :
    (((App.initial "claude" false none).handle_claude_event
          (.usage 18446744073709551615 0 0 0)).handle_claude_event
        (.usage 1 0 0 0)).token_usage.input_tokens
      < ((App.initial "claude" false none).handle_claude_event
          (.usage 18446744073709551615 0 0 0)).token_usage.input_tokens := by
  decide

/-- C5 amended: every usage event adds its four values to the running totals
with u64 wrapping arithmetic (sums taken mod 2^64, the release-profile
semantics of `+=`); no other orchestrator operation (inbound bus events,
slash commands - `/clear` included - message submission, bash execution, the
interrupt key, input submission) ever changes, and in particular never
resets or decreases, any counter; a usage event itself never decreases a
counter as long as each new total stays below 2^64, so the counters are
monotonically non-decreasing short of a u64 wrap; and the spec's concrete
example (10,5,0,0) then (20,1,2,0) accumulates to (30,6,2,0) from process
start. -/
theorem c5_usage_counters_mod_u64 :
    (∀ (s : App) (a b c d : Nat),
        (s.handle_claude_event (.usage a b c d)).token_usage
          = ⟨(s.token_usage.input_tokens + a) % u64Size,
             (s.token_usage.output_tokens + b) % u64Size,
             (s.token_usage.cache_read_tokens + c) % u64Size,
             (s.token_usage.cache_write_tokens + d) % u64Size⟩) ∧
    (∀ (s : App) (op : Op),
        (∀ a b c d, op ≠ .appMsg (.claudeEvent (.usage a b c d))) →
        (s.step op).token_usage = s.token_usage) ∧
    (∀ (s : App) (a b c d : Nat),
        s.token_usage.input_tokens + a < u64Size →
        s.token_usage.output_tokens + b < u64Size →
        s.token_usage.cache_read_tokens + c < u64Size →
        s.token_usage.cache_write_tokens + d < u64Size →
        TokenUsage.le s.token_usage
          (s.handle_claude_event (.usage a b c d)).token_usage) ∧
    ((App.initial "claude" false none).handle_claude_event (.usage 10 5 0 0)
        |>.handle_claude_event (.usage 20 1 2 0)).token_usage = ⟨30, 6, 2, 0⟩ := by
  refine ⟨fun s a b c d => rfl, ?_, ?_, by decide⟩
  · intro s op h
    cases op with
    | appMsg m =>
        exact tu_handle_app_message_nonusage s m
          (fun a b c d hm => h a b c d (by rw [hm]))
    | slash input sessions inbox => exact tu_handle_slash_command s input sessions inbox
    | userMessage m => exact tu_send_to_claude s m
    | bash command => rfl
    | interrupt => exact tu_ctrl_c s
    | submit sessions inbox => exact tu_submit_input s sessions inbox
  · intro s a b c d h1 h2 h3 h4
    refine ⟨?_, ?_, ?_, ?_⟩
    · rw [show (s.handle_claude_event (.usage a b c d)).token_usage.input_tokens
          = (s.token_usage.input_tokens + a) % u64Size from rfl,
        Nat.mod_eq_of_lt h1]
      exact Nat.le_add_right _ _
    · rw [show (s.handle_claude_event (.usage a b c d)).token_usage.output_tokens
          = (s.token_usage.output_tokens + b) % u64Size from rfl,
        Nat.mod_eq_of_lt h2]
      exact Nat.le_add_right _ _
    · rw [show (s.handle_claude_event (.usage a b c d)).token_usage.cache_read_tokens
          = (s.token_usage.cache_read_tokens + c) % u64Size from rfl,
        Nat.mod_eq_of_lt h3]
      exact Nat.le_add_right _ _
    · rw [show (s.handle_claude_event (.usage a b c d)).token_usage.cache_write_tokens
          = (s.token_usage.cache_write_tokens + d) % u64Size from rfl,
        Nat.mod_eq_of_lt h4]
      exact Nat.le_add_right _ _

/-- Witness for C5 amended: `/clear` leaves the counters unchanged, and a
small usage event (10,5,0,0) on the start state satisfies the no-wrap bounds
and does not decrease any counter. -/
theorem c5_usage_counters_mod_u64_witness :
    ((∀ a b c d, (Op.slash "/clear" [] [] : Op) ≠ .appMsg (.claudeEvent (.usage a b c d))) ∧
      ((App.initial "claude" false none).step (Op.slash "/clear" [] [])).token_usage
        = (App.initial "claude" false none).token_usage) ∧
    ((App.initial "claude" false none).token_usage.input_tokens + 10 < u64Size ∧
      (App.initial "claude" false none).token_usage.output_tokens + 5 < u64Size ∧
      (App.initial "claude" false none).token_usage.cache_read_tokens + 0 < u64Size ∧
      (App.initial "claude" false none).token_usage.cache_write_tokens + 0 < u64Size ∧
      TokenUsage.le (App.initial "claude" false none).token_usage
        ((App.initial "claude" false none).handle_claude_event
          (.usage 10 5 0 0)).token_usage) :=
  ⟨⟨fun a b c d h => Op.noConfusion h,
    c5_usage_counters_mod_u64.2.1 (App.initial "claude" false none)
      (Op.slash "/clear" [] []) (fun a b c d h => Op.noConfusion h)⟩,
    ⟨by decide, by decide, by decide, by decide,
      c5_usage_counters_mod_u64.2.2.1 (App.initial "claude" false none) 10 5 0 0
        (by decide) (by decide) (by decide) (by decide)⟩⟩

end ClaudeTerminal
